import Mathlib

/-!
Shallow embedding of the gov_tender_web_monitor pipeline
(`src/web_scraper_notitle.py`, `src/line_notifier.py`, `src/monitor_system.py`).

HTML documents and the HTTP layer cannot themselves be embedded, so the
interface a fetched response presents to the code is modelled at the
point the code consumes it: a response either raised
`requests.RequestException` (network failure or `raise_for_status` on a
non-2xx status) or produced a parsed document in which the results table
`table.tb_01` is either absent or a list of rows, each row being the
list of its `td` cells.  For each cell we keep exactly the data the
scraper reads from it: `.text` (plain text), `.get_text` with a newline
separator (read only on the third cell), and the
`href` attribute of its first anchor, when one exists.
-/

namespace GovTenderMonitor

/-- One `td` cell, as consumed by `PCCWebScraper`. -/
structure HtmlCell where
  /-- `cell.text` -/
  text : String
  /-- `cell.get_text(separator=chr(10))` -/
  textSep : String
  /-- the `href` attribute of `cell.select_one(str_a)`, `none` when the cell
  has no anchor or the anchor has no `href` attribute -/
  href? : Option String
deriving Repr, DecidableEq, Inhabited

/-- A `tr` row of the results table: the list of its `td` cells. -/
abbrev Row := List HtmlCell

/-- Outcome of the HTTP fetch in `search_tenders` (lines 126-127 and 137-147).
`failure` is a raised `requests.RequestException` — a network error from
`requests.get` or the `HTTPError` from `response.raise_for_status()` on a
non-2xx status.  `ok table?` is a parsed response whose results table
`soup.select_one` on the class tb_01 is absent (`none`) or present with
the given rows of `main_table.select(str_tr)`. -/
inductive FetchResult where
  | failure
  | ok (table? : Option (List Row))
deriving Repr, DecidableEq

/-- The dictionary returned by `_parse_tender_row` (lines 247-259). -/
structure Tender where
  id : String
  title : String
  organization : String
  transmission : String
  tender_method : String
  tender_type : String
  announcement_date : String
  deadline : String
  budget : String
  link : String
  found_date : String
deriving Repr, DecidableEq, Inhabited

/-- `self.tender_history`: the JSON object mapping tender id to record,
embedded as an association list.  Python dict lookup corresponds to
`List.lookup`; the code only ever assigns `self.tender_history[id]` when
`id` is absent, which corresponds to appending a fresh binding. -/
abbrev History := List (String × Tender)

/-- Python `s.strip()`: drop whitespace from both ends. -/
def pyStrip (s : String) : String :=
  ⟨((s.data.dropWhile Char.isWhitespace).reverse.dropWhile Char.isWhitespace).reverse⟩

/-- `re.match` of an anchored all-digits pattern against `s`:
true iff `s` is non-empty and every character is a digit. -/
def isIntString (s : String) : Bool :=
  !s.data.isEmpty && s.data.all Char.isDigit

/-- Lines 151-161 of `search_tenders`: a row is kept as a data row iff its
cell list is non-empty, has at least 9 cells, and the stripped text of its
first cell matches the anchored integer pattern. -/
def is_data_row (cells : Row) : Bool :=
  !cells.isEmpty && decide (9 ≤ cells.length) &&
    (match cells with
     | c :: _ => isIntString (pyStrip c.text)
     | [] => false)

/-- Splits a character list at its first newline: the characters before
it and, when a newline exists, the characters after it. -/
def splitFirstAux : List Char → List Char × Option (List Char)
  | [] => ([], none)
  | c :: cs =>
      if c = '\n' then ([], some cs)
      else
        let r := splitFirstAux cs
        (c :: r.1, r.2)

/-- Python `s.split(chr(10), 1)`: the text before the first newline and,
when a newline exists, the remainder (which may itself contain newlines). -/
def splitFirstNL (s : String) : String × Option String :=
  let r := splitFirstAux s.data
  (⟨r.1⟩, r.2.map fun l => ⟨l⟩)

/-- Python `s.startswith(chr(47))`: the first character is a slash. -/
def startsWithSlash (s : String) : Bool :=
  match s.data with
  | c :: _ => c == '/'
  | [] => false

/-- Lines 237-245 of `_parse_tender_row`: resolve the detail link from the
anchor of the tender cell.  An `href` starting with a slash is prefixed
with the bare host, any other `href` with the host plus a slash, and a
missing anchor yields the empty string. -/
def resolve_link (href? : Option String) : String :=
  match href? with
  | none => ""
  | some href =>
      if startsWithSlash href then "https://web.pcc.gov.tw" ++ href
      else "https://web.pcc.gov.tw/" ++ href

/-- `_parse_tender_row` (lines 188-262): extract the record from a row's
cells by fixed position; fewer than 9 cells yields `None`.  `now` is the
`datetime.now()` timestamp formatted for `found_date`. -/
def parse_tender_row (cells : Row) (now : String) : Option Tender :=
  match cells with
  | _c0 :: c1 :: c2 :: c3 :: c4 :: c5 :: c6 :: c7 :: c8 :: _ =>
      let tender_text := pyStrip c2.textSep
      let tender_parts := splitFirstNL tender_text
      let tender_id := pyStrip tender_parts.1
      let title := match tender_parts.2 with
        | some rest => pyStrip rest
        | none => "Unknown Title"
      some {
        id := tender_id
        title := title
        organization := pyStrip c1.text
        transmission := pyStrip c3.text
        tender_method := pyStrip c4.text
        tender_type := pyStrip c5.text
        announcement_date := pyStrip c6.text
        deadline := pyStrip c7.text
        budget := pyStrip c8.text
        link := resolve_link c2.href?
        found_date := now }
  | _ => none

/-- The classification step at lines 174-176 of `search_tenders`: a
parsed record is reported new and inserted into the history exactly when
its id is absent from the current history; a record whose id is already
present leaves both the report list and the history unchanged. -/
def classify_step (acc : List Tender × History) (tender : Tender) :
    List Tender × History :=
  if (acc.2.lookup tender.id).isSome then acc
  else (acc.1 ++ [tender], acc.2 ++ [(tender.id, tender)])

/-- Body of the classification loop, lines 170-176 of `search_tenders`:
parse the row and, on success, classify the record against the running
history. -/
def scan_row (now : String) (acc : List Tender × History) (row : Row) :
    List Tender × History :=
  match parse_tender_row row now with
  | none => acc
  | some tender => classify_step acc tender

/-- Result of one `search_tenders` call: the returned list, the final
in-memory `self.tender_history`, and the snapshots written to the history
file by `_save_history`, in write order. -/
structure SearchOutcome where
  new_tenders : List Tender
  history : History
  saved : List History
deriving Repr, DecidableEq

/-- `search_tenders` (lines 124-186), for a given prior history.
On a raised fetch the handler returns `[]` (line 186); a missing results
table or an empty set of data rows returns `[]` before any history write
(lines 142-144, 163-165); otherwise the loop classifies each data row
against the running history and `_save_history` flushes once at the end
(line 179). -/
def search_tenders (hist : History) (resp : FetchResult) (now : String) :
    SearchOutcome :=
  match resp with
  | .failure => ⟨[], hist, []⟩
  | .ok none => ⟨[], hist, []⟩
  | .ok (some tender_rows) =>
      let data_rows := tender_rows.filter is_data_row
      if data_rows.isEmpty then ⟨[], hist, []⟩
      else
        let r := data_rows.foldl (scan_row now) ([], hist)
        ⟨r.1, r.2, [r.2]⟩

/-- The history file read by `_load_history` (lines 57-66): missing, or
present with the outcome of `json.load` on its content — either the
decoded mapping or a raised `json.JSONDecodeError` carrying a message. -/
inductive StoredFile where
  | missing
  | present (decoded : Except String History)

/-- `_load_history`: the loaded history together with the log lines
emitted.  A missing file yields the empty mapping silently; a decode
error yields the empty mapping and the logged error message. -/
def load_history : StoredFile → History × List String
  | .missing => ([], [])
  | .present (.ok h) => (h, [])
  | .present (.error _) =>
      ([], ["Error decoding history file. Starting with empty history."])

end GovTenderMonitor

namespace GovTenderMonitor

/-! ## Notifier (`src/line_notifier.py`) -/

/-- Outcome the LINE Messaging API produces for one delivery attempt:
either the message is accepted, or the client raises `LineBotApiError`. -/
inductive SendOutcome where
  | delivered
  | apiError
deriving Repr, DecidableEq

/-- The external channel behind `self.line_bot_api`: what `push_message`
(to a given user) and `broadcast` do for each message text. -/
structure LineChannel where
  push : String → String → SendOutcome
  broadcast : String → SendOutcome

/-- `LineNotifier.__init__`: the API client and the optional target user. -/
structure LineNotifier where
  channel : LineChannel
  user_id : Option String

/-- The dictionary a tender is presented to the notifier as; every field
is read with `dict.get`, so each is optional. -/
structure TenderDict where
  id : Option String
  title : Option String
  organization : Option String
  date : Option String
  link : Option String
  deadline : Option String
  budget : Option String
deriving Repr, DecidableEq, Inhabited

/-- Python truthiness of `tender.get(str_link)`: false for a missing key
and for the empty string. -/
def linkTruthy : Option String → Bool
  | none => false
  | some s => !s.isEmpty

/-- `send_message` (lines 38-66): push to `user_id` when set, else
broadcast; a raised `LineBotApiError` is caught, logged, and reported as
`false`. -/
def send_message (n : LineNotifier) (message : String) : Bool :=
  let outcome :=
    match n.user_id with
    | some uid => n.channel.push uid message
    | none => n.channel.broadcast message
  match outcome with
  | .delivered => true
  | .apiError => false

/-- `format_tender_notification` (lines 68-89). -/
def format_tender_notification (tender : TenderDict) : String :=
  let message := "🔔 新招標公告通知 🔔\n\n"
  let message := message ++ "📋 標案編號: " ++ tender.id.getD "N/A" ++ "\n"
  let message := message ++ "📝 標案名稱: " ++ tender.title.getD "N/A" ++ "\n"
  let message := message ++ "🏢 招標機關: " ++ tender.organization.getD "N/A" ++ "\n"
  let message := message ++ "📅 公告日期: " ++ tender.date.getD "N/A" ++ "\n"
  let message :=
    if linkTruthy tender.link then
      message ++ "\n🔗 詳細資訊: " ++ tender.link.getD "" ++ "\n"
    else message
  message ++ "\n此通知由自動監控系統發送。"

/-- `send_tender_notification` (lines 91-102), traced: the result together
with the list of message texts handed to `send_message`, in order. -/
def send_tender_notification (n : LineNotifier) (tender : TenderDict) :
    Bool × List String :=
  let message := format_tender_notification tender
  (send_message n message, [message])

/-- The summary text built at lines 121-127 for a multi-tender batch. -/
def summary_message (tenders : List TenderDict) : String :=
  let s := "🔔 發現 " ++ toString tenders.length
    ++ " 個新招標公告符合您的關鍵字 (\u0027交通局\u0027 和 \u0027水湳\u0027)\n\n"
  let s := s ++ "以下是標案清單:\n"
  let s := (tenders.enumFrom 1).foldl
    (fun acc p => acc ++ toString p.1 ++ ". " ++ p.2.title.getD "N/A" ++ "\n") s
  s ++ "\n詳細資訊將在後續訊息中發送。"

/-- `send_multiple_tenders_notification` (lines 104-136), traced: the
returned bool together with the message texts handed to `send_message`,
in order.  Empty batch: no send, `true`.  Singleton: delegate to
`send_tender_notification`.  Otherwise: the summary is sent first, then
one detail message per tender; the returned bool is the summary send's
result alone. -/
def send_multiple_tenders_notification (n : LineNotifier)
    (tenders : List TenderDict) : Bool × List String :=
  if tenders.isEmpty then (true, [])
  else
    match tenders with
    | [t] => send_tender_notification n t
    | _ =>
        let summary := summary_message tenders
        let success := send_message n summary
        let detailTrace := tenders.foldl
          (fun acc t => acc ++ (send_tender_notification n t).2) []
        (success, summary :: detailTrace)

/-- The scraper record as the monitor hands it to the notifier: every key
of the parsed dict is present; the notifier reads the absent key `date`
as `none`. -/
def Tender.toDict (t : Tender) : TenderDict :=
  { id := some t.id
    title := some t.title
    organization := some t.organization
    date := none
    link := some t.link
    deadline := some t.deadline
    budget := some t.budget }

/-- `MonitoringSystem.run_monitoring_job` (lines 75-103 of
`src/monitor_system.py`), for one invocation: run `search_tenders`, and
when the returned list is non-empty call
`send_multiple_tenders_notification` on it.  The result pairs the search
outcome with the trace of message texts handed to `send_message`. -/
def run_monitoring_job (n : LineNotifier) (hist : History)
    (resp : FetchResult) (now : String) : SearchOutcome × List String :=
  let o := search_tenders hist resp now
  if o.new_tenders.isEmpty then (o, [])
  else (o, (send_multiple_tenders_notification n (o.new_tenders.map Tender.toDict)).2)

/-! ## Concrete sample data exercising the definitions -/

/-- A cell with plain text only: no newline structure, no anchor. -/
def exCell (txt : String) : HtmlCell :=
  { text := txt, textSep := txt, href? := none }

/-- A qualifying data row for tender id T001 with a relative anchor. -/
def exRow1 : Row :=
  [exCell "1", exCell "交通局",
   { text := "T001案名一", textSep := "T001\n案名一", href? := some "/tps/detail1" },
   exCell "無", exCell "公開招標", exCell "工程類", exCell "114/01/01",
   exCell "114/02/01", exCell "1000000"]

/-- A second qualifying row carrying the same tender id T001 but a
different title: a within-batch duplicate. -/
def exRow2 : Row :=
  [exCell "2", exCell "交通局",
   { text := "T001案名二", textSep := "T001\n案名二", href? := some "/tps/detail2" },
   exCell "無", exCell "公開招標", exCell "工程類", exCell "114/01/02",
   exCell "114/02/02", exCell "2000000"]

/-- A qualifying row for the distinct tender id T002, without an anchor. -/
def exRow3 : Row :=
  [exCell "3", exCell "水利局",
   { text := "T002案名三", textSep := "T002\n案名三", href? := none },
   exCell "無", exCell "公開招標", exCell "工程類", exCell "114/01/03",
   exCell "114/02/03", exCell "3000000"]

/-- A header-like row: 9 cells but a non-numeric first cell. -/
def exRowHeader : Row :=
  [exCell "項次", exCell "機關名稱", exCell "標案案號名稱", exCell "傳輸次數",
   exCell "招標方式", exCell "採購性質", exCell "公告日期", exCell "截止投標",
   exCell "預算金額"]

/-- A short row: fewer than 9 cells. -/
def exRowShort : Row :=
  [exCell "4", exCell "交通局"]

/-- The record parsed from `exRow1` at timestamp NOW1. -/
def exTender1 : Tender :=
  { id := "T001", title := "案名一", organization := "交通局",
    transmission := "無", tender_method := "公開招標", tender_type := "工程類",
    announcement_date := "114/01/01", deadline := "114/02/01",
    budget := "1000000", link := "https://web.pcc.gov.tw/tps/detail1",
    found_date := "NOW1" }

/-- A channel that accepts every delivery. -/
def okChannel : LineChannel :=
  { push := fun _ _ => SendOutcome.delivered,
    broadcast := fun _ => SendOutcome.delivered }

/-- A channel that raises `LineBotApiError` on every delivery. -/
def errChannel : LineChannel :=
  { push := fun _ _ => SendOutcome.apiError,
    broadcast := fun _ => SendOutcome.apiError }

/-- A broadcasting notifier over the accepting channel. -/
def okNotifier : LineNotifier := { channel := okChannel, user_id := none }

/-- A single-recipient notifier over the raising channel. -/
def errNotifier : LineNotifier :=
  { channel := errChannel, user_id := some "U123" }

/-- A tender dict with every key present. -/
def exDictA : TenderDict :=
  { id := some "T001", title := some "案名一", organization := some "交通局",
    date := some "114/01/01", link := some "https://web.pcc.gov.tw/tps/detail1",
    deadline := some "114/02/01", budget := some "1000000" }

/-- A second full tender dict. -/
def exDictB : TenderDict :=
  { id := some "T002", title := some "案名三", organization := some "水利局",
    date := some "114/01/03", link := some "https://web.pcc.gov.tw/tps/detail3",
    deadline := some "114/02/03", budget := some "3000000" }

/-- A tender dict whose optional keys link, deadline and budget are all
absent. -/
def exDictNoOpt : TenderDict :=
  { id := some "T001", title := some "案名一", organization := some "交通局",
    date := some "114/01/01", link := none, deadline := none, budget := none }

/-- A tender dict with every key absent. -/
def exDictEmpty : TenderDict :=
  { id := none, title := none, organization := none,
    date := none, link := none, deadline := none, budget := none }

/-- A qualifying row whose anchor href is already an absolute URL. -/
def exRowAbs : Row :=
  [exCell "5", exCell "交通局",
   { text := "T003案名五", textSep := "T003\n案名五",
     href? := some "https://other.example/page" },
   exCell "無", exCell "公開招標", exCell "工程類", exCell "114/01/05",
   exCell "114/02/05", exCell "5000000"]

/-- A record for id T001 as stored by an earlier run: its fields differ
from those parsed by the current run. -/
def exTenderOld : Tender :=
  { id := "T001", title := "舊案名", organization := "交通局",
    transmission := "無", tender_method := "公開招標", tender_type := "工程類",
    announcement_date := "113/12/01", deadline := "113/12/31",
    budget := "900000", link := "", found_date := "OLD" }

/-- A prior history already containing id T001. -/
def exHist0 : History := [("T001", exTenderOld)]

/-- `pat` occurs as a contiguous substring of `s`. -/
def containsStr (s pat : String) : Prop :=
  ∃ a b : String, s = a ++ pat ++ b

/-- Number of records in `ts` whose id is `k`. -/
def countId (ts : List Tender) (k : String) : Nat :=
  (ts.filter fun t => t.id == k).length

end GovTenderMonitor

namespace GovTenderMonitor

/-! ## Helper lemmas -/

theorem lookup_append (k : String) (l1 l2 : History) :
    (l1 ++ l2).lookup k = ((l1.lookup k).orElse fun _ => l2.lookup k) := by
  induction l1 with
  | nil => simp [List.lookup]
  | cons p l ih =>
      obtain ⟨a, b⟩ := p
      by_cases h : k == a
      · simp [List.lookup, h]
      · simp [List.lookup, h, ih]

theorem scan_foldl_eq (now : String) (rows : List Row)
    (acc : List Tender × History) :
    rows.foldl (scan_row now) acc =
      (rows.filterMap fun r => parse_tender_row r now).foldl classify_step acc := by
  induction rows generalizing acc with
  | nil => rfl
  | cons r rows ih =>
      simp only [List.foldl_cons, scan_row, List.filterMap_cons]
      cases parse_tender_row r now with
      | none => exact ih acc
      | some t => simp only [List.foldl_cons]; exact ih _

theorem classify_foldl_acc (ts : List Tender) (ns : List Tender) (h : History) :
    ts.foldl classify_step (ns, h) =
      (ns ++ (ts.foldl classify_step ([], h)).1,
        (ts.foldl classify_step ([], h)).2) := by
  induction ts generalizing ns h with
  | nil => simp
  | cons t ts ih =>
      simp only [List.foldl_cons, classify_step]
      by_cases hc : (h.lookup t.id).isSome = true
      · simp only [hc, if_true]
        exact ih ns h
      · simp only [hc, if_false, Bool.false_eq_true]
        rw [ih (ns ++ [t])]
        simp only [List.nil_append]
        rw [ih [t]]
        simp [List.append_assoc]

end GovTenderMonitor

namespace GovTenderMonitor

theorem classify_all_seen (ts : List Tender) (h : History)
    (hall : ∀ t ∈ ts, (h.lookup t.id).isSome = true) :
    ts.foldl classify_step ([], h) = ([], h) := by
  induction ts with
  | nil => rfl
  | cons t ts ih =>
      simp only [List.foldl_cons, classify_step]
      rw [if_pos (hall t (by simp))]
      exact ih fun t' ht' => hall t' (by simp [ht'])

theorem classify_lookup (ts : List Tender) (h : History) (k : String) :
    ((ts.foldl classify_step ([], h)).2).lookup k =
      ((h.lookup k).orElse fun _ => ts.find? fun t => t.id == k) := by
  induction ts generalizing h with
  | nil =>
      simp only [List.foldl_nil, List.find?_nil]
      cases hl : h.lookup k <;> simp [hl, Option.orElse]
  | cons t ts ih =>
      simp only [List.foldl_cons, classify_step]
      by_cases hc : (h.lookup t.id).isSome = true
      · rw [if_pos hc, ih]
        by_cases hk : (t.id == k) = true
        · have hek : t.id = k := by simpa using hk
          subst hek
          obtain ⟨v, hv⟩ := Option.isSome_iff_exists.mp hc
          simp [hv, Option.orElse, List.find?]
        · rw [List.find?_cons_of_neg _ (by simpa using hk)]
      · rw [if_neg hc]
        have hnone : h.lookup t.id = none := by
          cases hl : h.lookup t.id with
          | none => rfl
          | some v => rw [hl] at hc; simp at hc
        rw [show ((([] : List Tender) ++ [t],
              h ++ [(t.id, t)]) : List Tender × History) =
            ([t], h ++ [(t.id, t)]) from by simp]
        rw [classify_foldl_acc ts [t] (h ++ [(t.id, t)])]
        simp only
        rw [ih (h ++ [(t.id, t)])]
        rw [lookup_append]
        by_cases hk : (t.id == k) = true
        · have hek : t.id = k := by simpa using hk
          subst hek
          simp [hnone, Option.orElse, List.lookup, List.find?]
        · have hne : ¬ t.id = k := by simpa using hk
          rw [List.find?_cons_of_neg _ (by simpa using hk)]
          have : List.lookup k [(t.id, t)] = none := by
            simp [List.lookup, show (k == t.id) = false from by
              simpa using fun hx => hne hx.symm]
          rw [this]
          cases h.lookup k <;> simp [Option.orElse]

end GovTenderMonitor

namespace GovTenderMonitor

theorem countId_append (a b : List Tender) (k : String) :
    countId (a ++ b) k = countId a k + countId b k := by
  simp [countId, List.filter_append]

theorem classify_count (ts : List Tender) (h : History) (k : String) :
    countId (ts.foldl classify_step ([], h)).1 k =
      if (h.lookup k).isSome then 0 else min (countId ts k) 1 := by
  induction ts generalizing h with
  | nil =>
      simp only [List.foldl_nil]
      have h0 : countId ([] : List Tender) k = 0 := rfl
      rw [h0]
      split <;> simp [h0]
  | cons t ts ih =>
      simp only [List.foldl_cons, classify_step]
      by_cases hc : (h.lookup t.id).isSome = true
      · rw [if_pos hc, ih]
        by_cases hk : (h.lookup k).isSome = true
        · simp [hk]
        · have hne : (t.id == k) = false := by
            by_cases hx : (t.id == k) = true
            · exfalso
              have : t.id = k := by simpa using hx
              rw [this] at hc
              exact hk hc
            · simpa using hx
          have hcnt : countId (t :: ts) k = countId ts k := by
            simp [countId, List.filter_cons, hne]
          simp [hk, hcnt]
      · rw [if_neg hc]
        rw [show ((([] : List Tender) ++ [t],
              h ++ [(t.id, t)]) : List Tender × History) =
            ([t], h ++ [(t.id, t)]) from by simp]
        rw [classify_foldl_acc ts [t] (h ++ [(t.id, t)])]
        simp only
        rw [countId_append, ih (h ++ [(t.id, t)])]
        rw [lookup_append]
        by_cases hk : (t.id == k) = true
        · have hek : t.id = k := by simpa using hk
          subst hek
          have hLnone : h.lookup t.id = none := by
            cases hl : h.lookup t.id with
            | none => rfl
            | some v => rw [hl] at hc; simp at hc
          have h1 : countId [t] t.id = 1 := by
            simp [countId, List.filter_cons]
          have h2 : List.lookup t.id [(t.id, t)] = some t := by
            simp [List.lookup]
          rw [h1, hLnone, h2]
          have h3 : countId (t :: ts) t.id = countId ts t.id + 1 := by
            simp [countId, List.filter_cons]
          rw [h3]
          simp [Option.orElse]
        · have hne : ¬ t.id = k := by simpa using hk
          have h1 : countId [t] k = 0 := by
            simp [countId, List.filter_cons, show (t.id == k) = false from by
              simpa using hk]
          have h2 : List.lookup k [(t.id, t)] = none := by
            simp [List.lookup, show (k == t.id) = false from by
              simpa using fun hx => hne hx.symm]
          have h3 : countId (t :: ts) k = countId ts k := by
            simp [countId, List.filter_cons, show (t.id == k) = false from by
              simpa using hk]
          rw [h1, h2, h3]
          cases hl : h.lookup k <;> simp [hl, Option.orElse]

end GovTenderMonitor

namespace GovTenderMonitor

theorem parse_id_of_now (r : Row) (a b : String) :
    (parse_tender_row r a).map Tender.id = (parse_tender_row r b).map Tender.id := by
  rcases r with _ | ⟨c0, _ | ⟨c1, _ | ⟨c2, _ | ⟨c3, _ | ⟨c4, _ | ⟨c5, _ |
    ⟨c6, _ | ⟨c7, _ | ⟨c8, rest⟩⟩⟩⟩⟩⟩⟩⟩⟩ <;> rfl

theorem parsed_ids_of_now (rows : List Row) (a b : String) :
    ((rows.filterMap fun r => parse_tender_row r a).map Tender.id) =
      ((rows.filterMap fun r => parse_tender_row r b).map Tender.id) := by
  induction rows with
  | nil => rfl
  | cons r rows ih =>
      have h := parse_id_of_now r a b
      simp only [List.filterMap_cons]
      cases ha : parse_tender_row r a <;> cases hb : parse_tender_row r b
      · exact ih
      · rw [ha, hb] at h; exact absurd h (by simp)
      · rw [ha, hb] at h; exact absurd h (by simp)
      · rw [ha, hb] at h
        simp only [List.map_cons]
        simp only [Option.map_some', Option.some.injEq] at h
        rw [h, ih]

theorem detail_trace_eq (n : LineNotifier) (ts : List TenderDict)
    (init : List String) :
    ts.foldl (fun acc t => acc ++ (send_tender_notification n t).2) init =
      init ++ ts.map fun t => format_tender_notification t := by
  induction ts generalizing init with
  | nil => simp
  | cons t ts ih =>
      rw [List.foldl_cons, ih]
      simp [send_tender_notification, List.append_assoc]

end GovTenderMonitor

namespace GovTenderMonitor

/-! ## Claim theorems -/

/-- C3: when the HTTP fetch raises (network failure or non-2xx status),
`search_tenders` returns the empty list, the in-memory history is exactly
the prior history, and no snapshot is written to the history file.
Totality of `search_tenders` renders the absence of an escaping
exception. -/
theorem C3_fetch_failure_atomicity (hist : History) (now : String) :
    search_tenders hist FetchResult.failure now =
      ⟨[], hist, []⟩ := rfl

/-- C3 witness: the failure outcome at a concrete non-empty history. -/
theorem C3_fetch_failure_atomicity_witness :
    search_tenders exHist0 FetchResult.failure "NOW1" =
      ⟨[], exHist0, []⟩ :=
  C3_fetch_failure_atomicity exHist0 "NOW1"

/-- C9: a history file whose content fails to decode loads as the empty
mapping together with the logged decode-error line, for every decode
error; a missing file loads as the empty mapping.  Totality of
`load_history` renders the absence of an escaping exception. -/
theorem C9_corrupt_store_recovery :
    (∀ e : String,
      load_history (StoredFile.present (Except.error e)) =
        ([], ["Error decoding history file. Starting with empty history."]))
    ∧ load_history StoredFile.missing = ([], []) :=
  ⟨fun _ => rfl, rfl⟩

/-- C10: for a row of at least nine cells, the parsed record's link is
derived from the anchor of the third cell by unconditional host
prefixing: an href starting with a slash is appended to the bare host,
any other href (an absolute URL included) is appended to the host plus a
slash, and a missing anchor yields the empty string. -/
theorem C10_link_qualification (c0 c1 c2 c3 c4 c5 c6 c7 c8 : HtmlCell)
    (rest : List HtmlCell) (now : String) (t : Tender)
    (hp : parse_tender_row
      (c0 :: c1 :: c2 :: c3 :: c4 :: c5 :: c6 :: c7 :: c8 :: rest) now = some t) :
    t.link = match c2.href? with
      | none => ""
      | some href =>
          if startsWithSlash href then "https://web.pcc.gov.tw" ++ href
          else "https://web.pcc.gov.tw/" ++ href := by
  simp only [parse_tender_row, Option.some.injEq] at hp
  subst hp
  simp only [resolve_link]

/-- C10 witness: the three href shapes at concrete rows — a relative
href, no anchor, and an href that is already an absolute URL. -/
theorem C10_link_qualification_witness :
    exTender1.link = "https://web.pcc.gov.tw/tps/detail1"
    ∧ (parse_tender_row exRow3 "NOW1").map Tender.link = some ""
    ∧ (parse_tender_row exRowAbs "NOW1").map Tender.link =
        some "https://web.pcc.gov.tw/https://other.example/page" := by
  refine ⟨?_, by decide, by decide⟩
  have h := C10_link_qualification (exCell "1") (exCell "交通局")
    { text := "T001案名一", textSep := "T001\n案名一", href? := some "/tps/detail1" }
    (exCell "無") (exCell "公開招標") (exCell "工程類") (exCell "114/01/01")
    (exCell "114/02/01") (exCell "1000000") [] "NOW1" exTender1 (by decide)
  exact h.trans (by decide)

/-- C8: a row of the results table is kept as a data row if and only if
it occurs among the rows, has at least 9 cells, and the stripped text of
its first cell matches the anchored integer pattern; rows with fewer
cells or a non-numeric first cell are skipped, not errors. -/
theorem C8_row_qualification (rows : List Row) (row : Row) :
    row ∈ rows.filter is_data_row ↔
      (row ∈ rows ∧ 9 ≤ row.length ∧
        ∃ c cs, row = c :: cs ∧ isIntString (pyStrip c.text) = true) := by
  rw [List.mem_filter]
  have hiff : is_data_row row = true ↔
      (9 ≤ row.length ∧
        ∃ c cs, row = c :: cs ∧ isIntString (pyStrip c.text) = true) := by
    cases row with
    | nil => simp [is_data_row]
    | cons c cs =>
        simp only [is_data_row, List.isEmpty_cons, Bool.not_false,
          Bool.true_and, Bool.and_eq_true, decide_eq_true_eq]
        constructor
        · rintro ⟨h9, hd⟩
          exact ⟨h9, c, cs, rfl, hd⟩
        · rintro ⟨h9, c', cs', heq, hd⟩
          cases heq
          exact ⟨h9, hd⟩
  rw [hiff]

/-- C8 witness: a qualifying row is kept; a short row and a row with a
non-numeric first cell are excluded. -/
theorem C8_row_qualification_witness :
    exRow1 ∈ ([exRowHeader, exRow1, exRowShort].filter is_data_row)
    ∧ exRowShort ∉ ([exRowHeader, exRow1, exRowShort].filter is_data_row)
    ∧ exRowHeader ∉ ([exRowHeader, exRow1, exRowShort].filter is_data_row) := by
  refine ⟨?_, ?_, ?_⟩
  · exact (C8_row_qualification [exRowHeader, exRow1, exRowShort] exRow1).mpr
      ⟨by simp, by decide, exRow1.head (by decide), exRow1.tail, by decide, by decide⟩
  · intro hmem
    have h := (C8_row_qualification [exRowHeader, exRow1, exRowShort] exRowShort).mp hmem
    have : (9 : Nat) ≤ 2 := by simpa [exRowShort] using h.2.1
    omega
  · intro hmem
    have h := (C8_row_qualification [exRowHeader, exRow1, exRowShort] exRowHeader).mp hmem
    obtain ⟨-, -, c, cs, heq, hd⟩ := h
    have hc : c = exCell "項次" := by
      have := congrArg (fun l => l.headD (exCell "x")) heq
      simpa [exRowHeader] using this.symm
    rw [hc] at hd
    exact absurd hd (by decide)

end GovTenderMonitor

namespace GovTenderMonitor

/-- C5: the batch send of an empty list performs no send and returns
true; of a singleton delegates to the single-record notification; of two
or more records sends the summary first, then one detail message per
record in order, and returns the summary send's result alone, whatever
the detail sends do. -/
theorem C5_batch_send_contract (n : LineNotifier) (tenders : List TenderDict) :
    (tenders = [] → send_multiple_tenders_notification n tenders = (true, []))
    ∧ (∀ t, tenders = [t] →
        send_multiple_tenders_notification n tenders =
          send_tender_notification n t)
    ∧ (2 ≤ tenders.length →
        send_multiple_tenders_notification n tenders =
          (send_message n (summary_message tenders),
            summary_message tenders ::
              tenders.map fun t => format_tender_notification t)) := by
  refine ⟨?_, ?_, ?_⟩
  · rintro rfl; rfl
  · rintro t rfl
    simp [send_multiple_tenders_notification]
  · intro h2
    match tenders, h2 with
    | a :: b :: rest, _ =>
        simp only [send_multiple_tenders_notification, List.isEmpty_cons,
          Bool.false_eq_true, if_false]
        rw [detail_trace_eq]
        simp

/-- C5 witness: the three batch shapes at concrete inputs. -/
theorem C5_batch_send_contract_witness :
    send_multiple_tenders_notification okNotifier [] = (true, [])
    ∧ send_multiple_tenders_notification okNotifier [exDictA] =
        send_tender_notification okNotifier exDictA
    ∧ send_multiple_tenders_notification okNotifier [exDictA, exDictB] =
        (send_message okNotifier (summary_message [exDictA, exDictB]),
          summary_message [exDictA, exDictB] ::
            [format_tender_notification exDictA,
              format_tender_notification exDictB]) := by
  refine ⟨(C5_batch_send_contract okNotifier []).1 rfl,
    (C5_batch_send_contract okNotifier [exDictA]).2.1 exDictA rfl, ?_⟩
  have h := (C5_batch_send_contract okNotifier [exDictA, exDictB]).2.2 (by simp)
  simpa using h

/-- C6: a channel-level `LineBotApiError` raised by the delivery call is
caught inside `send_message`, which returns false (its totality renders
the absence of an escaping exception); and the sequence of messages a
batch send hands to `send_message` does not depend on the channel at
all, so one failed send never suppresses the remaining sends. -/
theorem C6_error_containment :
    (∀ (n : LineNotifier) (message : String),
      (match n.user_id with
        | some uid => n.channel.push uid message
        | none => n.channel.broadcast message) = SendOutcome.apiError →
      send_message n message = false)
    ∧ (∀ (n n' : LineNotifier) (tenders : List TenderDict),
        (send_multiple_tenders_notification n tenders).2 =
          (send_multiple_tenders_notification n' tenders).2) := by
  constructor
  · intro n message h
    simp [send_message, h]
  · intro n n' tenders
    rcases tenders with _ | ⟨a, _ | ⟨b, rest⟩⟩
    · rfl
    · rfl
    · simp only [send_multiple_tenders_notification, List.isEmpty_cons,
        Bool.false_eq_true, if_false]
      rw [detail_trace_eq, detail_trace_eq]

/-- C6 witness: a raising channel yields false, and the attempted
message sequence of a failing channel equals that of a succeeding one. -/
theorem C6_error_containment_witness :
    send_message errNotifier "測試訊息" = false
    ∧ (send_multiple_tenders_notification errNotifier [exDictA, exDictB]).2 =
        (send_multiple_tenders_notification okNotifier [exDictA, exDictB]).2 :=
  ⟨C6_error_containment.1 errNotifier "測試訊息" rfl,
    C6_error_containment.2 errNotifier okNotifier [exDictA, exDictB]⟩

end GovTenderMonitor

namespace GovTenderMonitor

theorem C7_counterexample :
    format_tender_notification exDictNoOpt =
      "🔔 新招標公告通知 🔔\n\n📋 標案編號: T001\n📝 標案名稱: 案名一\n🏢 招標機關: 交通局\n📅 公告日期: 114/01/01\n\n此通知由自動監控系統發送。"
    ∧ format_tender_notification exDictNoOpt =
        format_tender_notification
          { exDictNoOpt with deadline := some "114/02/01", budget := some "1000000" } :=
  ⟨rfl, rfl⟩

theorem C7_amended (tender : TenderDict) :
    (tender.id = none →
      containsStr (format_tender_notification tender) "標案編號: N/A")
    ∧ (tender.title = none →
      containsStr (format_tender_notification tender) "標案名稱: N/A")
    ∧ (tender.organization = none →
      containsStr (format_tender_notification tender) "招標機關: N/A")
    ∧ (tender.date = none →
      containsStr (format_tender_notification tender) "公告日期: N/A")
    ∧ (linkTruthy tender.link = true →
      containsStr (format_tender_notification tender)
        ("🔗 詳細資訊: " ++ tender.link.getD ""))
    ∧ (linkTruthy tender.link = false →
      format_tender_notification tender =
        format_tender_notification { tender with link := none })
    ∧ (∀ d b, format_tender_notification { tender with deadline := d, budget := b } =
        format_tender_notification tender) := by
  refine ⟨?_, ?_, ?_, ?_, ?_, ?_, fun d b => rfl⟩
  · intro h
    refine ⟨"🔔 新招標公告通知 🔔\n\n📋 ",
      "\n" ++ ("📝 標案名稱: " ++ tender.title.getD "N/A" ++ "\n"
        ++ "🏢 招標機關: " ++ tender.organization.getD "N/A" ++ "\n"
        ++ "📅 公告日期: " ++ tender.date.getD "N/A" ++ "\n")
      ++ (if linkTruthy tender.link then
            "\n🔗 詳細資訊: " ++ tender.link.getD "" ++ "\n" else "")
      ++ "\n此通知由自動監控系統發送。", ?_⟩
    rw [show ("標案編號: N/A" : String) = "標案編號: " ++ "N/A" from rfl]
    simp only [format_tender_notification, h, Option.getD_none]
    split <;> simp [String.append_assoc] <;> rfl
  · intro h
    refine ⟨"🔔 新招標公告通知 🔔\n\n📋 標案編號: " ++ tender.id.getD "N/A"
      ++ "\n📝 ",
      "\n" ++ ("🏢 招標機關: " ++ tender.organization.getD "N/A" ++ "\n"
        ++ "📅 公告日期: " ++ tender.date.getD "N/A" ++ "\n")
      ++ (if linkTruthy tender.link then
            "\n🔗 詳細資訊: " ++ tender.link.getD "" ++ "\n" else "")
      ++ "\n此通知由自動監控系統發送。", ?_⟩
    rw [show ("標案名稱: N/A" : String) = "標案名稱: " ++ "N/A" from rfl]
    simp only [format_tender_notification, h, Option.getD_none]
    split <;> simp [String.append_assoc] <;> rfl
  · intro h
    refine ⟨"🔔 新招標公告通知 🔔\n\n📋 標案編號: " ++ tender.id.getD "N/A"
      ++ "\n📝 標案名稱: " ++ tender.title.getD "N/A" ++ "\n🏢 ",
      "\n" ++ ("📅 公告日期: " ++ tender.date.getD "N/A" ++ "\n")
      ++ (if linkTruthy tender.link then
            "\n🔗 詳細資訊: " ++ tender.link.getD "" ++ "\n" else "")
      ++ "\n此通知由自動監控系統發送。", ?_⟩
    rw [show ("招標機關: N/A" : String) = "招標機關: " ++ "N/A" from rfl]
    simp only [format_tender_notification, h, Option.getD_none]
    split <;> simp [String.append_assoc] <;> rfl
  · intro h
    refine ⟨"🔔 新招標公告通知 🔔\n\n📋 標案編號: " ++ tender.id.getD "N/A"
      ++ "\n📝 標案名稱: " ++ tender.title.getD "N/A"
      ++ "\n🏢 招標機關: " ++ tender.organization.getD "N/A" ++ "\n📅 ",
      "\n"
      ++ (if linkTruthy tender.link then
            "\n🔗 詳細資訊: " ++ tender.link.getD "" ++ "\n" else "")
      ++ "\n此通知由自動監控系統發送。", ?_⟩
    rw [show ("公告日期: N/A" : String) = "公告日期: " ++ "N/A" from rfl]
    simp only [format_tender_notification, h, Option.getD_none]
    split <;> simp [String.append_assoc]
    rfl
  · intro h
    refine ⟨"🔔 新招標公告通知 🔔\n\n📋 標案編號: " ++ tender.id.getD "N/A"
      ++ "\n📝 標案名稱: " ++ tender.title.getD "N/A"
      ++ "\n🏢 招標機關: " ++ tender.organization.getD "N/A"
      ++ "\n📅 公告日期: " ++ tender.date.getD "N/A" ++ "\n\n",
      "\n" ++ "\n此通知由自動監控系統發送。", ?_⟩
    simp only [format_tender_notification, h, if_true]
    simp [String.append_assoc]
    rw [show (forall X : String, "\n\n" ++ ("🔗 詳細資訊: " ++ X) =
      "\n\n🔗 詳細資訊: " ++ X) from fun X => by
        rw [← String.append_assoc]
        rfl]
  · intro h
    have h2 : linkTruthy (none : Option String) = false := rfl
    simp only [format_tender_notification, h, h2, Bool.false_eq_true, if_false]

end GovTenderMonitor

namespace GovTenderMonitor

theorem C7_amended_witness :
    containsStr (format_tender_notification exDictEmpty) "標案編號: N/A"
    ∧ containsStr (format_tender_notification exDictEmpty) "標案名稱: N/A"
    ∧ containsStr (format_tender_notification exDictEmpty) "招標機關: N/A"
    ∧ containsStr (format_tender_notification exDictEmpty) "公告日期: N/A"
    ∧ containsStr (format_tender_notification exDictA)
        ("🔗 詳細資訊: " ++ "https://web.pcc.gov.tw/tps/detail1")
    ∧ format_tender_notification exDictEmpty =
        format_tender_notification { exDictEmpty with link := none }
    ∧ format_tender_notification
        { exDictA with deadline := some "X", budget := some "Y" } =
        format_tender_notification exDictA :=
  ⟨(C7_amended exDictEmpty).1 rfl,
    (C7_amended exDictEmpty).2.1 rfl,
    (C7_amended exDictEmpty).2.2.1 rfl,
    (C7_amended exDictEmpty).2.2.2.1 rfl,
    (C7_amended exDictA).2.2.2.2.1 rfl,
    (C7_amended exDictEmpty).2.2.2.2.2.1 rfl,
    (C7_amended exDictA).2.2.2.2.2.2 (some "X") (some "Y")⟩

end GovTenderMonitor

namespace GovTenderMonitor

/-- C4 counterexample: a fetch that succeeds but whose response carries
no results table writes no snapshot at all — the history file is not
flushed exactly once on every successful fetch; the same holds when the
table has no qualifying data row. -/
theorem C4_counterexample :
    (search_tenders [] (FetchResult.ok none) "NOW1").saved.length ≠ 1
    ∧ (search_tenders []
        (FetchResult.ok (some [exRowHeader])) "NOW1").saved.length ≠ 1 := by
  exact ⟨by decide, by decide⟩

/-- C4 amended: on a successful fetch whose table is present and has at
least one qualifying data row, the history file is written exactly once,
and the single snapshot is the final post-classification history (so the
flush happens after the whole batch is classified); when the table is
absent or no row qualifies, nothing is written. -/
theorem C4_amended (hist : History) (now : String) (rows : List Row) :
    ((rows.filter is_data_row).isEmpty = false →
      (search_tenders hist (FetchResult.ok (some rows)) now).saved =
        [(search_tenders hist (FetchResult.ok (some rows)) now).history])
    ∧ ((rows.filter is_data_row).isEmpty = true →
      (search_tenders hist (FetchResult.ok (some rows)) now).saved = [])
    ∧ (search_tenders hist (FetchResult.ok none) now).saved = [] := by
  refine ⟨?_, ?_, rfl⟩
  · intro h
    simp only [search_tenders, h, Bool.false_eq_true, if_false]
  · intro h
    simp only [search_tenders, h, if_true]

/-- C4 witness: one qualifying row yields exactly the one final
snapshot; a batch of only non-qualifying rows yields no write. -/
theorem C4_amended_witness :
    (search_tenders [] (FetchResult.ok (some [exRow1])) "NOW1").saved =
      [(search_tenders [] (FetchResult.ok (some [exRow1])) "NOW1").history]
    ∧ (search_tenders [] (FetchResult.ok (some [exRowHeader])) "NOW1").saved
        = [] :=
  ⟨(C4_amended [] "NOW1" [exRow1]).1 (by decide),
    (C4_amended [] "NOW1" [exRowHeader]).2.1 (by decide)⟩

end GovTenderMonitor

namespace GovTenderMonitor

/-- C1: over one successful-run batch, the number of records reported
new for any id k is zero when k is already in the prior history, and
exactly one when k is absent and occurs at least once among the parsed
records of the batch (a within-batch duplicate is therefore reported
once); and any id already bound before the run keeps its original
record in the final history, never overwritten. -/
theorem C1_classification (hist : History) (rows : List Row) (now k : String) :
    countId (search_tenders hist (FetchResult.ok (some rows)) now).new_tenders k
      = (if (hist.lookup k).isSome then 0
          else min (countId ((rows.filter is_data_row).filterMap
            fun r => parse_tender_row r now) k) 1)
    ∧ ∀ v, hist.lookup k = some v →
        ((search_tenders hist (FetchResult.ok (some rows)) now).history).lookup k
          = some v := by
  constructor
  · by_cases hE : (rows.filter is_data_row).isEmpty = true
    · have hnil : rows.filter is_data_row = [] := by
        simpa [List.isEmpty_iff] using hE
      simp only [search_tenders, hE, if_true]
      rw [hnil]
      have h0 : countId ([] : List Tender) k = 0 := rfl
      simp only [List.filterMap_nil, h0]
      split <;> simp [h0]
    · simp only [search_tenders, hE, Bool.false_eq_true, if_false]
      rw [scan_foldl_eq]
      exact classify_count _ hist k
  · intro v hv
    by_cases hE : (rows.filter is_data_row).isEmpty = true
    · simp only [search_tenders, hE, if_true]
      exact hv
    · simp only [search_tenders, hE, Bool.false_eq_true, if_false]
      rw [scan_foldl_eq, classify_lookup, hv]
      rfl

/-- C1 witness: with an empty prior history a batch whose rows parse to
ids T001, T001, T002 reports T001 new exactly once; with T001 already
in the prior history it is not reported at all and the stored record
survives classification unchanged. -/
theorem C1_classification_witness :
    countId (search_tenders []
        (FetchResult.ok (some [exRow1, exRow2, exRow3])) "NOW1").new_tenders
      "T001" = 1
    ∧ countId (search_tenders exHist0
        (FetchResult.ok (some [exRow1, exRow2, exRow3])) "NOW1").new_tenders
      "T001" = 0
    ∧ ((search_tenders exHist0
        (FetchResult.ok (some [exRow1])) "NOW1").history).lookup "T001" =
      some exTenderOld := by
  refine ⟨?_, ?_,
    (C1_classification exHist0 [exRow1] "NOW1" "T001").2 exTenderOld (by decide)⟩
  · rw [(C1_classification [] [exRow1, exRow2, exRow3] "NOW1" "T001").1]
    decide
  · rw [(C1_classification exHist0 [exRow1, exRow2, exRow3] "NOW1" "T001").1]
    decide

end GovTenderMonitor

namespace GovTenderMonitor

theorem search_twice_no_new (hist : History) (resp : FetchResult)
    (now1 now2 : String) :
    (search_tenders (search_tenders hist resp now1).history resp
        now2).new_tenders = [] := by
  cases resp with
  | failure => rfl
  | ok table? =>
      cases table? with
      | none => rfl
      | some rows =>
          by_cases hE : (rows.filter is_data_row).isEmpty = true
          · simp only [search_tenders, hE, if_true]
          · simp only [search_tenders, hE, Bool.false_eq_true, if_false]
            rw [scan_foldl_eq, scan_foldl_eq]
            have hall : ∀ t ∈ (rows.filter is_data_row).filterMap
                (fun r => parse_tender_row r now2),
                (((((rows.filter is_data_row).filterMap
                  fun r => parse_tender_row r now1).foldl classify_step
                    ([], hist)).2).lookup t.id).isSome = true := by
              intro t ht
              have hid2 : t.id ∈ ((rows.filter is_data_row).filterMap
                  fun r => parse_tender_row r now2).map Tender.id :=
                List.mem_map_of_mem Tender.id ht
              have hid1 : t.id ∈ ((rows.filter is_data_row).filterMap
                  fun r => parse_tender_row r now1).map Tender.id := by
                rw [parsed_ids_of_now (rows.filter is_data_row) now1 now2]
                exact hid2
              obtain ⟨t', ht', hid'⟩ := List.mem_map.mp hid1
              rw [classify_lookup]
              cases hl : hist.lookup t.id with
              | some v => simp [Option.orElse]
              | none =>
                  have hfind : (((rows.filter is_data_row).filterMap
                      fun r => parse_tender_row r now1).find?
                        fun x => x.id == t.id).isSome = true := by
                    rw [List.find?_isSome]
                    exact ⟨t', ht', by simp [hid']⟩
                  obtain ⟨w, hw⟩ := Option.isSome_iff_exists.mp hfind
                  simp [Option.orElse, hw]
            rw [classify_all_seen _ _ hall]

/-- C2: running the pipeline a second time against the identical fetch
response, starting from the history produced by the first run, yields
no new records, and the monitoring job hands no message at all to the
notifier on that second run. -/
theorem C2_idempotence (n : LineNotifier) (hist : History)
    (resp : FetchResult) (now1 now2 : String) :
    (search_tenders (search_tenders hist resp now1).history resp
        now2).new_tenders = []
    ∧ (run_monitoring_job n
        (run_monitoring_job n hist resp now1).1.history resp now2).2 = [] := by
  refine ⟨search_twice_no_new hist resp now1 now2, ?_⟩
  have h1 : (run_monitoring_job n hist resp now1).1 =
      search_tenders hist resp now1 := by
    simp only [run_monitoring_job]
    split <;> rfl
  rw [h1]
  have hmain := search_twice_no_new hist resp now1 now2
  simp only [run_monitoring_job, hmain, List.isEmpty_nil, if_true]

/-- C2 witness: a concrete two-row batch replayed against the history
of its own first run. -/
theorem C2_idempotence_witness :
    (search_tenders (search_tenders []
        (FetchResult.ok (some [exRow1, exRow3])) "NOW1").history
      (FetchResult.ok (some [exRow1, exRow3])) "NOW2").new_tenders = []
    ∧ (run_monitoring_job okNotifier
        (run_monitoring_job okNotifier []
          (FetchResult.ok (some [exRow1, exRow3])) "NOW1").1.history
        (FetchResult.ok (some [exRow1, exRow3])) "NOW2").2 = [] :=
  C2_idempotence okNotifier [] (FetchResult.ok (some [exRow1, exRow3]))
    "NOW1" "NOW2"

end GovTenderMonitor
